import Mathlib

/-!
Verification of the ATM controller (`src/atm_controller.py`) and its data
model (`src/models/*.py`), mock collaborators (`src/mocks/*.py`) and error
taxonomy (`src/exceptions/atm_exceptions.py`).

The controller is written against abstract collaborator interfaces
(`src/interfaces/*.py`); we embed it parametrically over a collaborator
behaviour record `Collaborators σ` (explicit state passing over a world
state `σ`), and instantiate with `MockWorld` — the direct translation of
the three mock collaborators.  Python exceptions are modelled as values of
`PyExc` (one constructor per exception class that the embedded code can
raise, carrying the message string); an operation returns its Python
result in `Except PyExc`, together with the post-call controller and
world, since in Python a raised exception still leaves the mutated
objects behind.  Machine integers are `Int` (Python ints are unbounded);
`datetime` instants are abstract integers with the current instant fixed
at 0 (the session is treated as instantaneous, which is the only use the
embedded code makes of time).  `transaction_id` (a random UUID) and
`timestamp` are nondeterministic environment outputs not referenced by
any embedded logic and are omitted from the `Transaction` record.
-/

/-- Python exception values that the embedded code can raise: one
constructor per class from `src/exceptions/atm_exceptions.py` that is
actually raised, plus Python's built-in `ValueError`, each carrying the
message string. -/
inductive PyExc where
  | ATMException (msg : String)
  | InvalidCardException (msg : String)
  | InvalidPinException (msg : String)
  | AccountNotFoundException (msg : String)
  | InsufficientFundsException (msg : String)
  | InsufficientCashException (msg : String)
  | ValueError (msg : String)
deriving DecidableEq, Repr

/-- `str(e)` of an exception: its message. -/
def pyExcMsg : PyExc → String
  | .ATMException m => m
  | .InvalidCardException m => m
  | .InvalidPinException m => m
  | .AccountNotFoundException m => m
  | .InsufficientFundsException m => m
  | .InsufficientCashException m => m
  | .ValueError m => m

/-- `AccountType` from `src/models/account.py`. -/
inductive AccountType where
  | CHECKING
  | SAVINGS
  | CREDIT
deriving DecidableEq, Repr

/-- `Account` dataclass from `src/models/account.py`.  The
`daily_withdrawal_limit` field is `Optional[int]` in Python
(`none` before `__post_init__` defaulting). -/
structure Account where
  account_number : String
  account_type : AccountType
  balance : Int
  account_name : String
  is_active : Bool := true
  daily_withdrawal_limit : Option Int := none
deriving DecidableEq, Repr

/-- `Account.__post_init__`: validates the identifying fields and defaults
the daily withdrawal limit by account type when unset. -/
def Account.post_init (a : Account) : Except PyExc Account :=
  if a.account_number = "" then .error (.ValueError "Account number is required")
  else if a.account_name = "" then .error (.ValueError "Account name is required")
  else
    match a.daily_withdrawal_limit with
    | some _ => .ok a
    | none =>
      let dflt : Int :=
        match a.account_type with
        | .CHECKING => 1000
        | .SAVINGS => 500
        | .CREDIT => 300
      .ok { a with daily_withdrawal_limit := some dflt }

/-- `Account.can_withdraw` from `src/models/account.py`.  Note the Python
guard `if self.daily_withdrawal_limit and amount > self.daily_withdrawal_limit`:
the limit participates by truthiness, so a limit of `None` *or `0`* skips
the limit comparison entirely. -/
def Account.can_withdraw (a : Account) (amount : Int) : Bool :=
  if !a.is_active then false
  else if amount ≤ 0 then false
  else if (match a.daily_withdrawal_limit with
           | some l => !(l = 0) && amount > l
           | none => false) then false
  else if a.account_type = AccountType.CREDIT then true
  else a.balance ≥ amount

/-- `TransactionType` from `src/models/transaction.py`. -/
inductive TransactionType where
  | DEPOSIT
  | WITHDRAWAL
  | BALANCE_INQUIRY
deriving DecidableEq, Repr

/-- `Transaction` dataclass from `src/models/transaction.py`, restricted to
the deterministic fields (see the module comment for `transaction_id` and
`timestamp`). -/
structure Transaction where
  transaction_type : TransactionType
  amount : Int
  account_number : String
  balance_after : Int
deriving DecidableEq, Repr

/-- `Card` dataclass from `src/models/card.py`; `expiry_date` is an
abstract instant (now = 0). -/
structure Card where
  card_number : String
  holder_name : String
  expiry_date : Int
  card_type : String := "DEBIT"
  is_active : Bool := true
deriving DecidableEq, Repr

/-- `Card` construction including `Card.__post_init__` (validation plus
deactivation of already-expired cards), with `datetime.now()` fixed at 0. -/
def mkCard (card_number holder_name : String) (expiry_date : Int)
    (card_type : String) : Except PyExc Card :=
  if card_number = "" ∨ card_number.length < 12 then
    .error (.ValueError "Invalid card number")
  else if holder_name = "" then
    .error (.ValueError "Cardholder name is required")
  else
    .ok { card_number := card_number, holder_name := holder_name,
          expiry_date := expiry_date, card_type := card_type,
          is_active := !(expiry_date < 0) }

/-- The three collaborator interfaces from `src/interfaces/*.py`, as a
record of state-passing behaviours over a world state `σ`.  Each method
returns its Python result (or raised exception) together with the
post-call world.  `eject_card` is the card reader's; per its contract it
always succeeds (returning `True`), so only the state transition is kept. -/
structure Collaborators (σ : Type) where
  validate_card : σ → String → Except PyExc Bool × σ
  verify_pin : σ → String → String → Except PyExc Bool × σ
  get_accounts : σ → String → Except PyExc (List Account) × σ
  get_account : σ → String → Except PyExc (Option Account) × σ
  get_balance : σ → String → Except PyExc Int × σ
  deposit : σ → String → Int → Except PyExc Int × σ
  withdraw : σ → String → Int → Except PyExc Int × σ
  read_card : σ → String → Except PyExc Card × σ
  eject_card : σ → σ
  has_sufficient_cash : σ → Int → Except PyExc Bool × σ
  dispense_cash : σ → Int → Except PyExc Bool × σ

/-- `ATMState` from `src/atm_controller.py`. -/
inductive ATMState where
  | IDLE
  | CARD_INSERTED
  | PIN_VERIFIED
  | ACCOUNT_SELECTED
deriving DecidableEq, Repr

/-- The session-scoped mutable fields of `ATMController`. -/
structure Controller where
  state : ATMState
  current_card : Option Card
  current_account : Option Account
  transaction_history : List Transaction
deriving DecidableEq, Repr

namespace ATM

variable {σ : Type}

/-- `ATMController._reset_session`. -/
def reset_session (_ctl : Controller) : Controller :=
  { state := ATMState.IDLE, current_card := none, current_account := none,
    transaction_history := [] }

/-- `ATMController.insert_card`.  The whole body after the state guard is
a `try` whose `except Exception` clause resets the session and re-raises. -/
def insert_card (C : Collaborators σ) (ctl : Controller) (w : σ)
    (card_number : String) : Except PyExc Bool × Controller × σ :=
  if ctl.state ≠ ATMState.IDLE then
    (.error (.ATMException "ATM is not ready to accept a card"), ctl, w)
  else
    match C.validate_card w card_number with
    | (.error e, w') => (.error e, reset_session ctl, w')
    | (.ok false, w') =>
      (.error (.InvalidCardException "Invalid card"), reset_session ctl, w')
    | (.ok true, w') =>
      match C.read_card w' card_number with
      | (.error e, w'') => (.error e, reset_session ctl, w'')
      | (.ok card, w'') =>
        (.ok true,
         { ctl with state := ATMState.CARD_INSERTED, current_card := some card },
         w'')

/-- `ATMController.enter_pin`.  Only `InvalidPinException` is caught (and
then the session is reset before re-raising); other collaborator failures
propagate without a reset. -/
def enter_pin (C : Collaborators σ) (ctl : Controller) (w : σ) (pin : String) :
    Except PyExc Bool × Controller × σ :=
  if ctl.state ≠ ATMState.CARD_INSERTED then
    (.error (.ATMException "No card inserted or PIN already verified"), ctl, w)
  else
    match ctl.current_card with
    | none => (.error (.ATMException "No card information available"), ctl, w)
    | some card =>
      match C.verify_pin w card.card_number pin with
      | (.error (.InvalidPinException m), w') =>
        (.error (.InvalidPinException m), reset_session ctl, w')
      | (.error e, w') => (.error e, ctl, w')
      | (.ok false, w') =>
        (.error (.InvalidPinException "Incorrect PIN"), reset_session ctl, w')
      | (.ok true, w') =>
        (.ok true, { ctl with state := ATMState.PIN_VERIFIED }, w')

/-- `ATMController.get_accounts`. -/
def get_accounts (C : Collaborators σ) (ctl : Controller) (w : σ) :
    Except PyExc (List Account) × Controller × σ :=
  if ctl.state ≠ ATMState.PIN_VERIFIED then
    (.error (.ATMException "PIN not verified"), ctl, w)
  else
    match ctl.current_card with
    | none => (.error (.ATMException "No card information available"), ctl, w)
    | some card =>
      match C.get_accounts w card.card_number with
      | (.error e, w') => (.error e, ctl, w')
      | (.ok accs, w') => (.ok accs, ctl, w')

/-- `ATMController.select_account`: existence via `get_account`, then
ownership via membership of the account number in the card's re-fetched
account list. -/
def select_account (C : Collaborators σ) (ctl : Controller) (w : σ)
    (account_number : String) : Except PyExc Account × Controller × σ :=
  if ctl.state ≠ ATMState.PIN_VERIFIED then
    (.error (.ATMException "PIN not verified"), ctl, w)
  else
    match ctl.current_card with
    | none => (.error (.ATMException "No card information available"), ctl, w)
    | some card =>
      match C.get_account w account_number with
      | (.error e, w') => (.error e, ctl, w')
      | (.ok none, w') =>
        (.error (.AccountNotFoundException
                  ("Account " ++ account_number ++ " not found")), ctl, w')
      | (.ok (some account), w') =>
        match C.get_accounts w' card.card_number with
        | (.error e, w'') => (.error e, ctl, w'')
        | (.ok accounts, w'') =>
          if account_number ∈ accounts.map (fun acc => acc.account_number) then
            (.ok account,
             { ctl with state := ATMState.ACCOUNT_SELECTED,
                        current_account := some account },
             w'')
          else
            (.error (.AccountNotFoundException
                      "Account does not belong to this card"), ctl, w'')

/-- `ATMController.get_balance`: fresh read from the ledger, and the
locally cached account's balance is overwritten with it. -/
def get_balance (C : Collaborators σ) (ctl : Controller) (w : σ) :
    Except PyExc Int × Controller × σ :=
  if ctl.state ≠ ATMState.ACCOUNT_SELECTED then
    (.error (.ATMException "No account selected"), ctl, w)
  else
    match ctl.current_account with
    | none => (.error (.ATMException "No account information available"), ctl, w)
    | some account =>
      match C.get_balance w account.account_number with
      | (.error e, w') => (.error e, ctl, w')
      | (.ok balance, w') =>
        (.ok balance,
         { ctl with current_account := some { account with balance := balance } },
         w')

/-- `ATMController.deposit`. -/
def deposit (C : Collaborators σ) (ctl : Controller) (w : σ) (amount : Int) :
    Except PyExc Transaction × Controller × σ :=
  if ctl.state ≠ ATMState.ACCOUNT_SELECTED then
    (.error (.ATMException "No account selected"), ctl, w)
  else
    match ctl.current_account with
    | none => (.error (.ATMException "No account information available"), ctl, w)
    | some account =>
      if amount ≤ 0 then
        (.error (.ATMException "Deposit amount must be positive"), ctl, w)
      else
        match C.deposit w account.account_number amount with
        | (.error e, w') => (.error e, ctl, w')
        | (.ok new_balance, w') =>
          let t : Transaction :=
            { transaction_type := TransactionType.DEPOSIT, amount := amount,
              account_number := account.account_number,
              balance_after := new_balance }
          (.ok t,
           { ctl with
               transaction_history := ctl.transaction_history ++ [t],
               current_account := some { account with balance := new_balance } },
           w')

/-- `ATMController.withdraw`: state and amount guards, then cash check,
then a fresh balance read via `self.get_balance()` (which also updates the
cached account), then funds check, then ledger debit, then dispensing,
then the transaction record. -/
def withdraw (C : Collaborators σ) (ctl : Controller) (w : σ) (amount : Int) :
    Except PyExc Transaction × Controller × σ :=
  if ctl.state ≠ ATMState.ACCOUNT_SELECTED then
    (.error (.ATMException "No account selected"), ctl, w)
  else
    match ctl.current_account with
    | none => (.error (.ATMException "No account information available"), ctl, w)
    | some _account =>
      if amount ≤ 0 then
        (.error (.ATMException "Withdrawal amount must be positive"), ctl, w)
      else
        match C.has_sufficient_cash w amount with
        | (.error e, w') => (.error e, ctl, w')
        | (.ok false, w') =>
          (.error (.InsufficientCashException "ATM has insufficient cash"),
           ctl, w')
        | (.ok true, w') =>
          match get_balance C ctl w' with
          | (.error e, ctl', w'') => (.error e, ctl', w'')
          | (.ok current_balance, ctl', w'') =>
            if current_balance < amount then
              (.error (.InsufficientFundsException "Insufficient funds in account"),
               ctl', w'')
            else
              match ctl'.current_account with
              | none =>
                (.error (.ATMException "No account information available"),
                 ctl', w'')
              | some account2 =>
                match C.withdraw w'' account2.account_number amount with
                | (.error e, w3) => (.error e, ctl', w3)
                | (.ok new_balance, w3) =>
                  match C.dispense_cash w3 amount with
                  | (.error e, w4) => (.error e, ctl', w4)
                  | (.ok _ok, w4) =>
                    let t : Transaction :=
                      { transaction_type := TransactionType.WITHDRAWAL,
                        amount := amount,
                        account_number := account2.account_number,
                        balance_after := new_balance }
                    (.ok t,
                     { ctl' with
                         transaction_history := ctl'.transaction_history ++ [t],
                         current_account :=
                           some { account2 with balance := new_balance } },
                     w4)

/-- `ATMController.get_transaction_history` (returns a copy of the log). -/
def get_transaction_history (ctl : Controller) : List Transaction :=
  ctl.transaction_history

/-- `ATMController.eject_card`: ejects via the reader when a card is held,
then resets the session; always returns `True`. -/
def eject_card (C : Collaborators σ) (ctl : Controller) (w : σ) :
    Except PyExc Bool × Controller × σ :=
  let w' := if ctl.current_card.isSome then C.eject_card w else w
  (.ok true, reset_session ctl, w')

end ATM

/-- The customer intents of §4.1's transition table (the public operations
of `ATMController`). -/
inductive Op where
  | insert_card (card_number : String)
  | enter_pin (pin : String)
  | get_accounts
  | select_account (account_number : String)
  | get_balance
  | deposit (amount : Int)
  | withdraw (amount : Int)
  | eject_card
deriving DecidableEq, Repr

/-- Success payload of an operation, erased to one type so operations can
be sequenced uniformly. -/
inductive RVal where
  | bool (b : Bool)
  | int (i : Int)
  | account (a : Account)
  | accounts (l : List Account)
  | txn (t : Transaction)
deriving DecidableEq, Repr

/-- Dispatch one operation on the controller. -/
def runOp {σ : Type} (C : Collaborators σ) (ctl : Controller) (w : σ) :
    Op → Except PyExc RVal × Controller × σ
  | .insert_card n =>
    let (r, c, s) := ATM.insert_card C ctl w n
    (r.map RVal.bool, c, s)
  | .enter_pin p =>
    let (r, c, s) := ATM.enter_pin C ctl w p
    (r.map RVal.bool, c, s)
  | .get_accounts =>
    let (r, c, s) := ATM.get_accounts C ctl w
    (r.map RVal.accounts, c, s)
  | .select_account n =>
    let (r, c, s) := ATM.select_account C ctl w n
    (r.map RVal.account, c, s)
  | .get_balance =>
    let (r, c, s) := ATM.get_balance C ctl w
    (r.map RVal.int, c, s)
  | .deposit amount =>
    let (r, c, s) := ATM.deposit C ctl w amount
    (r.map RVal.txn, c, s)
  | .withdraw amount =>
    let (r, c, s) := ATM.withdraw C ctl w amount
    (r.map RVal.txn, c, s)
  | .eject_card =>
    let (r, c, s) := ATM.eject_card C ctl w
    (r.map RVal.bool, c, s)

/-- Run a sequence of operations, collecting (in completion order) the
transaction records returned by the successful deposit/withdraw calls. -/
def runSeq {σ : Type} (C : Collaborators σ) :
    Controller → σ → List Op → Controller × σ × List Transaction
  | ctl, _w, [] => (ctl, _w, [])
  | ctl, w, op :: rest =>
    let (r, ctl', w') := runOp C ctl w op
    let (ctlf, wf, ts) := runSeq C ctl' w' rest
    match r with
    | .ok (.txn t) => (ctlf, wf, t :: ts)
    | _ => (ctlf, wf, ts)

/-- Replace the first binding of `k` in an association list (the mock
bank's account dict under mutation of one entry). -/
def updateAssoc (l : List (String × Account)) (k : String) (v : Account) :
    List (String × Account) :=
  match l with
  | [] => []
  | (k', v') :: rest =>
    if k' = k then (k, v) :: rest else (k', v') :: updateAssoc rest k v

/-- Card-reader card metadata (`MockCardReader._card_info` entries). -/
structure CardInfoRec where
  holder_name : String
  expiry_date : Int
  card_type : String
deriving DecidableEq, Repr

/-- Combined state of the three mock collaborators
(`MockBankService`, `MockCashDispenser`, `MockCardReader`). -/
structure MockWorld where
  cards : List (String × String × Bool)
  accounts : List (String × Account)
  card_accounts : List (String × List String)
  card_info : List (String × CardInfoRec)
  available_cash : Int
  total_dispensed : Int
  card_inserted : Bool
  reader_card : Option Card
deriving DecidableEq, Repr

/-- `MockBankService.validate_card`. -/
def MockWorld.validate_card (w : MockWorld) (card_number : String) :
    Except PyExc Bool × MockWorld :=
  match w.cards.lookup card_number with
  | none => (.ok false, w)
  | some (_, valid) => (.ok valid, w)

/-- `MockBankService.verify_pin`. -/
def MockWorld.verify_pin (w : MockWorld) (card_number pin : String) :
    Except PyExc Bool × MockWorld :=
  match w.cards.lookup card_number with
  | none => (.ok false, w)
  | some (p, valid) => (.ok (valid && p == pin), w)

/-- `MockBankService.get_accounts`. -/
def MockWorld.get_accounts (w : MockWorld) (card_number : String) :
    Except PyExc (List Account) × MockWorld :=
  let nums := (w.card_accounts.lookup card_number).getD []
  (.ok (nums.filterMap fun an => w.accounts.lookup an), w)

/-- `MockBankService.get_account`. -/
def MockWorld.get_account (w : MockWorld) (account_number : String) :
    Except PyExc (Option Account) × MockWorld :=
  (.ok (w.accounts.lookup account_number), w)

/-- `MockBankService.get_balance`. -/
def MockWorld.get_balance (w : MockWorld) (account_number : String) :
    Except PyExc Int × MockWorld :=
  match w.accounts.lookup account_number with
  | none => (.error (.ValueError ("Account " ++ account_number ++ " not found")), w)
  | some a => (.ok a.balance, w)

/-- `MockBankService.deposit`. -/
def MockWorld.deposit (w : MockWorld) (account_number : String) (amount : Int) :
    Except PyExc Int × MockWorld :=
  match w.accounts.lookup account_number with
  | none => (.error (.ValueError ("Account " ++ account_number ++ " not found")), w)
  | some a =>
    if amount ≤ 0 then (.error (.ValueError "Deposit amount must be positive"), w)
    else
      let a' := { a with balance := a.balance + amount }
      (.ok a'.balance, { w with accounts := updateAssoc w.accounts account_number a' })

/-- `MockBankService.withdraw`. -/
def MockWorld.withdraw (w : MockWorld) (account_number : String) (amount : Int) :
    Except PyExc Int × MockWorld :=
  match w.accounts.lookup account_number with
  | none => (.error (.ValueError ("Account " ++ account_number ++ " not found")), w)
  | some a =>
    if amount ≤ 0 then (.error (.ValueError "Withdrawal amount must be positive"), w)
    else if a.balance < amount then
      (.error (.InsufficientFundsException "Insufficient funds in account"), w)
    else
      let a' := { a with balance := a.balance - amount }
      (.ok a'.balance, { w with accounts := updateAssoc w.accounts account_number a' })

/-- `MockCardReader.read_card` (now = 0; a raised `InvalidCardException`
from the expiry check passes through the `except (ValueError, KeyError)`
clause untouched, while a `ValueError` from `Card.__post_init__` is
wrapped). -/
def MockWorld.read_card (w : MockWorld) (card_number : String) :
    Except PyExc Card × MockWorld :=
  if card_number = "" then
    (.error (.InvalidCardException "No card number provided"), w)
  else
    match w.card_info.lookup card_number with
    | none => (.error (.InvalidCardException "Card not recognized"), w)
    | some info =>
      match mkCard card_number info.holder_name info.expiry_date info.card_type with
      | .error e =>
        (.error (.InvalidCardException ("Error reading card: " ++ pyExcMsg e)), w)
      | .ok card =>
        if (0 : Int) > card.expiry_date then
          (.error (.InvalidCardException "Card is expired"), w)
        else
          (.ok card, { w with card_inserted := true, reader_card := some card })

/-- `MockCardReader.eject_card` (always succeeds). -/
def MockWorld.eject_reader (w : MockWorld) : MockWorld :=
  { w with card_inserted := false, reader_card := none }

/-- `MockCashDispenser.has_sufficient_cash`. -/
def MockWorld.has_sufficient_cash (w : MockWorld) (amount : Int) :
    Except PyExc Bool × MockWorld :=
  (.ok (decide (w.available_cash ≥ amount)), w)

/-- `MockCashDispenser.dispense_cash`. -/
def MockWorld.dispense_cash (w : MockWorld) (amount : Int) :
    Except PyExc Bool × MockWorld :=
  if amount ≤ 0 then (.error (.ValueError "Dispense amount must be positive"), w)
  else if w.available_cash < amount then
    (.error (.InsufficientCashException
      ("Insufficient cash in ATM. Available: $" ++ toString w.available_cash ++
       ", Requested: $" ++ toString amount)), w)
  else
    (.ok true, { w with available_cash := w.available_cash - amount,
                        total_dispensed := w.total_dispensed + amount })

/-- The mock collaborators bundled as a `Collaborators` instance. -/
def mockCollab : Collaborators MockWorld :=
  { validate_card := MockWorld.validate_card
    verify_pin := MockWorld.verify_pin
    get_accounts := MockWorld.get_accounts
    get_account := MockWorld.get_account
    get_balance := MockWorld.get_balance
    deposit := MockWorld.deposit
    withdraw := MockWorld.withdraw
    read_card := MockWorld.read_card
    eject_card := MockWorld.eject_reader
    has_sufficient_cash := MockWorld.has_sufficient_cash
    dispense_cash := MockWorld.dispense_cash }

/-- Account `"1001"` from `MockBankService.__init__` (post-init defaulted
limit for CHECKING). -/
def acct1001 : Account :=
  { account_number := "1001", account_type := AccountType.CHECKING,
    balance := 1000, account_name := "Primary Checking",
    is_active := true, daily_withdrawal_limit := some 1000 }

/-- Account `"1002"` from `MockBankService.__init__`. -/
def acct1002 : Account :=
  { account_number := "1002", account_type := AccountType.SAVINGS,
    balance := 5000, account_name := "Primary Savings",
    is_active := true, daily_withdrawal_limit := some 500 }

/-- Account `"2001"` from `MockBankService.__init__`. -/
def acct2001 : Account :=
  { account_number := "2001", account_type := AccountType.CHECKING,
    balance := 750, account_name := "Business Checking",
    is_active := true, daily_withdrawal_limit := some 1000 }

/-- The initial data of the mock collaborators (`MockBankService.__init__`,
`MockCashDispenser.__init__` with the default 10000, and
`MockCardReader.__init__` with day-granularity instants relative to now). -/
def mockWorld0 : MockWorld :=
  { cards := [("1234567890123456", "1234", true),
              ("2345678901234567", "5678", true),
              ("3456789012345678", "9999", false)]
    accounts := [("1001", acct1001), ("1002", acct1002), ("2001", acct2001)]
    card_accounts := [("1234567890123456", ["1001", "1002"]),
                      ("2345678901234567", ["2001"])]
    card_info :=
      [("1234567890123456", { holder_name := "John Doe", expiry_date := 365,
                              card_type := "DEBIT" }),
       ("2345678901234567", { holder_name := "Jane Smith", expiry_date := 730,
                              card_type := "CREDIT" }),
       ("3456789012345678", { holder_name := "Invalid User", expiry_date := -30,
                              card_type := "DEBIT" })]
    available_cash := 10000
    total_dispensed := 0
    card_inserted := false
    reader_card := none }

/-- A fresh controller (`ATMController.__init__`). -/
def controller0 : Controller :=
  { state := ATMState.IDLE, current_card := none, current_account := none,
    transaction_history := [] }

/-- The messages of the `raise ATMException(...)` statements guarding the
state preconditions in `ATMController` — the spec's §7 *InvalidOperation*
kind (in the source these are base-class `ATMException` raises,
distinguishable from the *InvalidAmount* raises only by message). -/
def invalidOperationMsgs : List String :=
  ["ATM is not ready to accept a card",
   "No card inserted or PIN already verified",
   "PIN not verified",
   "No account selected",
   "No card information available",
   "No account information available"]

/-- An exception value is of the spec's *InvalidOperation* kind. -/
def isInvalidOperation (e : PyExc) : Bool :=
  match e with
  | .ATMException m => invalidOperationMsgs.contains m
  | _ => false

/-- An exception value is of the spec's *InvalidAmount* kind (the two
non-positive-amount `ATMException` raises in `deposit`/`withdraw`). -/
def isInvalidAmount (e : PyExc) : Bool :=
  match e with
  | .ATMException m =>
    m == "Deposit amount must be positive" || m == "Withdrawal amount must be positive"
  | _ => false

/-- An exception value is of the *InsufficientCash* kind. -/
def isInsufficientCash (e : PyExc) : Bool :=
  match e with
  | .InsufficientCashException _ => true
  | _ => false

/-- The spec's §4.1 transition-table preconditions, as a predicate on
(operation, session state).  Written from the spec's table, to state the
state-gating claim against the embedded controller. -/
def permits (op : Op) (ctl : Controller) : Bool :=
  match op with
  | .insert_card _ => ctl.state == ATMState.IDLE
  | .enter_pin _ => ctl.state == ATMState.CARD_INSERTED && ctl.current_card.isSome
  | .get_accounts => ctl.state == ATMState.PIN_VERIFIED
  | .select_account _ => ctl.state == ATMState.PIN_VERIFIED
  | .get_balance => ctl.state == ATMState.ACCOUNT_SELECTED
  | .deposit _ => ctl.state == ATMState.ACCOUNT_SELECTED
  | .withdraw _ => ctl.state == ATMState.ACCOUNT_SELECTED
  | .eject_card => true

/-- The operations that can append to the transaction log. -/
def isTxnOp : Op → Bool
  | .deposit _ => true
  | .withdraw _ => true
  | _ => false

/-- The log entries contributed by one operation result. -/
def collectR (r : Except PyExc RVal) : List Transaction :=
  match r with
  | .ok (.txn t) => [t]
  | _ => []

/-- The account numbers of the accounts the mock bank links to a card —
the list `[acc.account_number for acc in accounts]` that
`ATMController.select_account` tests membership against, instantiated at
the mock bank. -/
def MockWorld.ownedNumbers (w : MockWorld) (card_number : String) : List String :=
  ((((w.card_accounts.lookup card_number).getD []).filterMap
      fun an => w.accounts.lookup an).map fun acc => acc.account_number)

/-- The spec's §3 `can_withdraw` invariant, written from the spec's words:
active, positive amount, amount within the daily limit, and — for
non-CREDIT accounts — balance at least the amount. -/
def can_withdraw_claim (a : Account) (amount : Int) : Bool :=
  a.is_active && decide (0 < amount) &&
    (match a.daily_withdrawal_limit with
     | some l => decide (amount ≤ l)
     | none => true) &&
    (decide (a.account_type = AccountType.CREDIT) || decide (amount ≤ a.balance))

/-- A post-init-valid account whose explicitly supplied daily withdrawal
limit is 0 (Python keeps an explicit 0: only `None` is defaulted). -/
def acctZeroLimit : Account :=
  { account_number := "9001", account_type := AccountType.CHECKING,
    balance := 100, account_name := "Zero Limit",
    is_active := true, daily_withdrawal_limit := some 0 }

/-- The card `MockCardReader.read_card` builds for `"1234567890123456"`. -/
def cardJohn : Card :=
  { card_number := "1234567890123456", holder_name := "John Doe",
    expiry_date := 365, card_type := "DEBIT", is_active := true }

/-- The card `MockCardReader.read_card` builds for `"2345678901234567"`. -/
def cardJane : Card :=
  { card_number := "2345678901234567", holder_name := "Jane Smith",
    expiry_date := 730, card_type := "CREDIT", is_active := true }

/-- A session that has selected account `"1001"` with John's card. -/
def ctlAcc1001 : Controller :=
  { state := ATMState.ACCOUNT_SELECTED, current_card := some cardJohn,
    current_account := some acct1001, transaction_history := [] }

/-- A session holding John's card, before PIN entry. -/
def ctlCardJohn : Controller :=
  { state := ATMState.CARD_INSERTED, current_card := some cardJohn,
    current_account := none, transaction_history := [] }

/-- A PIN-verified session holding Jane's card. -/
def ctlPinJane : Controller :=
  { state := ATMState.PIN_VERIFIED, current_card := some cardJane,
    current_account := none, transaction_history := [] }

/-- A collaborator assignment exercising §7's partial-failure window: the
dispenser reports sufficient cash and the ledger debit succeeds, but the
subsequent dispense call fails, raising the dispenser contract's generic
`InsufficientCashException` (e.g. a hardware fault between the inventory
check and the dispense). -/
def faultyDispenserCollab : Collaborators Unit :=
  { validate_card := fun w _ => (.ok true, w)
    verify_pin := fun w _ _ => (.ok true, w)
    get_accounts := fun w _ => (.ok [], w)
    get_account := fun w _ => (.ok none, w)
    get_balance := fun w _ => (.ok 1000, w)
    deposit := fun w _ amount => (.ok (1000 + amount), w)
    withdraw := fun w _ amount => (.ok (1000 - amount), w)
    read_card := fun w _ => (.error (.InvalidCardException "Card not recognized"), w)
    eject_card := fun w => w
    has_sufficient_cash := fun w _ => (.ok true, w)
    dispense_cash := fun w _ =>
      (.error (.InsufficientCashException "Dispense failure"), w) }

theorem get_balance_frame {σ : Type} (C : Collaborators σ) (ctl : Controller) (w : σ) :
    ((ATM.get_balance C ctl w).2.1).state = ctl.state ∧
    ((ATM.get_balance C ctl w).2.1).current_card = ctl.current_card ∧
    ((ATM.get_balance C ctl w).2.1).transaction_history = ctl.transaction_history := by
  unfold ATM.get_balance
  split
  · exact ⟨rfl, rfl, rfl⟩
  · split
    · exact ⟨rfl, rfl, rfl⟩
    · split
      · exact ⟨rfl, rfl, rfl⟩
      · exact ⟨rfl, rfl, rfl⟩

theorem deposit_log_shape {σ : Type} (C : Collaborators σ) (ctl : Controller) (w : σ)
    (amount : Int) :
    ((ATM.deposit C ctl w amount).2.1).transaction_history =
      ctl.transaction_history ++
        (match (ATM.deposit C ctl w amount).1 with
         | .ok t => [t]
         | .error _ => []) := by
  unfold ATM.deposit
  split
  · simp
  · split
    · simp
    · split
      · simp
      · split
        · simp
        · simp

/-- Claim C7: `eject_card` always succeeds (returns `True`), resets the
session to IDLE with no held card, no held account and an empty
transaction log (calling the reader's eject only when a card is held),
and is idempotent: ejecting again from the reset session gives the same
result and leaves the world untouched. -/
theorem C7_eject_idempotent {σ : Type} (C : Collaborators σ) (ctl : Controller) (w : σ) :
    ATM.eject_card C ctl w =
      (.ok true,
       { state := ATMState.IDLE, current_card := none, current_account := none,
         transaction_history := [] },
       if ctl.current_card.isSome then C.eject_card w else w) ∧
    (∀ w' : σ,
      ATM.eject_card C
        { state := ATMState.IDLE, current_card := none, current_account := none,
          transaction_history := [] } w' =
      (.ok true,
       { state := ATMState.IDLE, current_card := none, current_account := none,
         transaction_history := [] },
       w')) :=
  ⟨rfl, fun _ => rfl⟩

/-- Claim C9: from ACCOUNT_SELECTED with a held account, `deposit` and
`withdraw` on a non-positive amount fail with the *InvalidAmount* kind and
leave the controller and the collaborator world untouched — for every
collaborator assignment, so no collaborator is contacted. -/
theorem C9_invalid_amount {σ : Type} (C : Collaborators σ) (ctl : Controller) (w : σ)
    (acc : Account) (amount : Int)
    (hs : ctl.state = ATMState.ACCOUNT_SELECTED)
    (ha : ctl.current_account = some acc)
    (hamt : amount ≤ 0) :
    ATM.deposit C ctl w amount =
      (.error (.ATMException "Deposit amount must be positive"), ctl, w) ∧
    ATM.withdraw C ctl w amount =
      (.error (.ATMException "Withdrawal amount must be positive"), ctl, w) ∧
    isInvalidAmount (PyExc.ATMException "Deposit amount must be positive") = true ∧
    isInvalidAmount (PyExc.ATMException "Withdrawal amount must be positive") = true := by
  refine ⟨?_, ?_, rfl, rfl⟩ <;>
    simp [ATM.deposit, ATM.withdraw, hs, ha, hamt]

theorem C9_witness :
    ATM.deposit mockCollab ctlAcc1001 mockWorld0 (-5) =
      (.error (.ATMException "Deposit amount must be positive"), ctlAcc1001, mockWorld0) ∧
    ATM.withdraw mockCollab ctlAcc1001 mockWorld0 (-5) =
      (.error (.ATMException "Withdrawal amount must be positive"), ctlAcc1001, mockWorld0) := by
  have h := C9_invalid_amount mockCollab ctlAcc1001 mockWorld0 acct1001 (-5) rfl rfl
    (by decide)
  exact ⟨h.1, h.2.1⟩

/-- Claim C4: from CARD_INSERTED with a held card, a PIN the bank reports
incorrect fails with InvalidPin and resets the whole session (IDLE, card
cleared); a PIN the bank reports correct returns `True`, moves to
PIN_VERIFIED and preserves the held card. -/
theorem C4_pin_reset {σ : Type} (C : Collaborators σ) (ctl : Controller) (w : σ)
    (card : Card) (pin : String)
    (hs : ctl.state = ATMState.CARD_INSERTED)
    (hc : ctl.current_card = some card) :
    (∀ w' : σ, C.verify_pin w card.card_number pin = (.ok false, w') →
      ATM.enter_pin C ctl w pin =
        (.error (.InvalidPinException "Incorrect PIN"),
         { state := ATMState.IDLE, current_card := none, current_account := none,
           transaction_history := [] },
         w')) ∧
    (∀ w' : σ, C.verify_pin w card.card_number pin = (.ok true, w') →
      ATM.enter_pin C ctl w pin =
        (.ok true, { ctl with state := ATMState.PIN_VERIFIED }, w')) := by
  constructor <;> intro w' hvp <;>
    simp [ATM.enter_pin, ATM.reset_session, hs, hc, hvp]

theorem C4_witness :
    ATM.enter_pin mockCollab ctlCardJohn mockWorld0 "9999" =
      (.error (.InvalidPinException "Incorrect PIN"),
       { state := ATMState.IDLE, current_card := none, current_account := none,
         transaction_history := [] },
       mockWorld0) ∧
    ATM.enter_pin mockCollab ctlCardJohn mockWorld0 "1234" =
      (.ok true, { ctlCardJohn with state := ATMState.PIN_VERIFIED }, mockWorld0) := by
  constructor
  · exact (C4_pin_reset mockCollab ctlCardJohn mockWorld0 cardJohn "9999" rfl rfl).1
      mockWorld0 rfl
  · exact (C4_pin_reset mockCollab ctlCardJohn mockWorld0 cardJohn "1234" rfl rfl).2
      mockWorld0 rfl

/-- Claim C5: from PIN_VERIFIED, selecting an account number that exists
globally in the mock bank but is not among the numbers of the held card's
(re-fetched) account list fails with AccountNotFound and leaves the
session untouched (so still PIN_VERIFIED, with whatever account handle —
none in a reachable session — it had); selecting a number that is in the
list returns the account, holds it, and moves to ACCOUNT_SELECTED.  The
membership test is by account number against the card's re-fetched list
(`MockWorld.ownedNumbers`). -/
theorem C5_ownership (ctl : Controller) (w : MockWorld) (card : Card)
    (n : String) (a : Account)
    (hs : ctl.state = ATMState.PIN_VERIFIED)
    (hc : ctl.current_card = some card)
    (hglob : w.accounts.lookup n = some a) :
    (n ∉ w.ownedNumbers card.card_number →
      ATM.select_account mockCollab ctl w n =
        (.error (.AccountNotFoundException "Account does not belong to this card"),
         ctl, w)) ∧
    (n ∈ w.ownedNumbers card.card_number →
      ATM.select_account mockCollab ctl w n =
        (.ok a,
         { ctl with state := ATMState.ACCOUNT_SELECTED, current_account := some a },
         w)) := by
  constructor <;> intro hmem
  · simp only [MockWorld.ownedNumbers] at hmem
    simp [ATM.select_account, mockCollab, MockWorld.get_account,
          MockWorld.get_accounts, hs, hc, hglob, hmem]
  · simp only [MockWorld.ownedNumbers] at hmem
    simp [ATM.select_account, mockCollab, MockWorld.get_account,
          MockWorld.get_accounts, hs, hc, hglob, hmem]

theorem C5_witness :
    ATM.select_account mockCollab ctlPinJane mockWorld0 "1001" =
      (.error (.AccountNotFoundException "Account does not belong to this card"),
       ctlPinJane, mockWorld0) ∧
    ATM.select_account mockCollab ctlPinJane mockWorld0 "2001" =
      (.ok acct2001,
       { ctlPinJane with state := ATMState.ACCOUNT_SELECTED,
                         current_account := some acct2001 },
       mockWorld0) := by
  constructor
  · exact (C5_ownership ctlPinJane mockWorld0 cardJane "1001" acct1001 rfl rfl rfl).1
      (by decide)
  · exact (C5_ownership ctlPinJane mockWorld0 cardJane "2001" acct2001 rfl rfl rfl).2
      (by decide)

/-- Claim C3: every operation invoked from a session state that §4.1's
transition table does not permit fails with the *InvalidOperation* kind
(a state-guard `ATMException`) and leaves the session — state tag, held
card, held account, transaction log — and even the collaborator world
unchanged, for every collaborator assignment. -/
theorem C3_state_gating {σ : Type} (C : Collaborators σ) (ctl : Controller) (w : σ)
    (op : Op) (h : permits op ctl = false) :
    ∃ e : PyExc, runOp C ctl w op = (.error e, ctl, w) ∧ isInvalidOperation e = true := by
  cases op with
  | insert_card n =>
    simp only [permits, beq_eq_false_iff_ne, ne_eq] at h
    exact ⟨.ATMException "ATM is not ready to accept a card",
      by simp [runOp, ATM.insert_card, h, Except.map], by rfl⟩
  | enter_pin p =>
    by_cases hst : ctl.state = ATMState.CARD_INSERTED
    · simp only [permits, hst, beq_self_eq_true, Bool.true_and] at h
      have hnone : ctl.current_card = none := Option.not_isSome_iff_eq_none.mp (by
        simp [h])
      exact ⟨.ATMException "No card information available",
        by simp [runOp, ATM.enter_pin, hst, hnone, Except.map], by rfl⟩
    · exact ⟨.ATMException "No card inserted or PIN already verified",
        by simp [runOp, ATM.enter_pin, hst, Except.map], by rfl⟩
  | get_accounts =>
    simp only [permits, beq_eq_false_iff_ne, ne_eq] at h
    exact ⟨.ATMException "PIN not verified",
      by simp [runOp, ATM.get_accounts, h, Except.map], by rfl⟩
  | select_account n =>
    simp only [permits, beq_eq_false_iff_ne, ne_eq] at h
    exact ⟨.ATMException "PIN not verified",
      by simp [runOp, ATM.select_account, h, Except.map], by rfl⟩
  | get_balance =>
    simp only [permits, beq_eq_false_iff_ne, ne_eq] at h
    exact ⟨.ATMException "No account selected",
      by simp [runOp, ATM.get_balance, h, Except.map], by rfl⟩
  | deposit amount =>
    simp only [permits, beq_eq_false_iff_ne, ne_eq] at h
    exact ⟨.ATMException "No account selected",
      by simp [runOp, ATM.deposit, h, Except.map], by rfl⟩
  | withdraw amount =>
    simp only [permits, beq_eq_false_iff_ne, ne_eq] at h
    exact ⟨.ATMException "No account selected",
      by simp [runOp, ATM.withdraw, h, Except.map], by rfl⟩
  | eject_card => simp [permits] at h

theorem C3_witness :
    ∃ e : PyExc, runOp mockCollab controller0 mockWorld0 (Op.withdraw 100) =
      (.error e, controller0, mockWorld0) ∧ isInvalidOperation e = true :=
  C3_state_gating mockCollab controller0 mockWorld0 (Op.withdraw 100) rfl

/-- Claim C1: from ACCOUNT_SELECTED with a positive amount, the withdraw
checks run in the fixed order cash → funds → debit → dispense.  If the
dispenser's inventory is below the amount the call fails with
InsufficientCash and the whole mock world — ledger balances included — is
untouched (the debit is never invoked), whatever the ledger holds.  If the
inventory suffices but the balance freshly re-read from the ledger is
below the amount, the call fails with InsufficientFunds and the world is
again untouched: no debit, no dispensing (only the controller's cached
copy of the account is refreshed). -/
theorem C1_withdraw_ordering (ctl : Controller) (w : MockWorld) (acc : Account)
    (amount : Int)
    (hs : ctl.state = ATMState.ACCOUNT_SELECTED)
    (ha : ctl.current_account = some acc)
    (hpos : 0 < amount) :
    (w.available_cash < amount →
      ATM.withdraw mockCollab ctl w amount =
        (.error (.InsufficientCashException "ATM has insufficient cash"), ctl, w)) ∧
    (amount ≤ w.available_cash →
      ∀ la : Account, w.accounts.lookup acc.account_number = some la →
        la.balance < amount →
        ATM.withdraw mockCollab ctl w amount =
          (.error (.InsufficientFundsException "Insufficient funds in account"),
           { ctl with current_account := some { acc with balance := la.balance } },
           w)) := by
  constructor
  · intro hcash
    simp [ATM.withdraw, mockCollab, MockWorld.has_sufficient_cash, hs, ha,
          not_le.mpr hpos, not_le.mpr hcash]
  · intro hcash la hla hbal
    simp [ATM.withdraw, ATM.get_balance, mockCollab, MockWorld.has_sufficient_cash,
          MockWorld.get_balance, hs, ha, hla, hbal, not_le.mpr hpos, hcash]

theorem C1_witness :
    ATM.withdraw mockCollab ctlAcc1001 { mockWorld0 with available_cash := 100 } 200 =
      (.error (.InsufficientCashException "ATM has insufficient cash"), ctlAcc1001,
       { mockWorld0 with available_cash := 100 }) ∧
    ATM.withdraw mockCollab ctlAcc1001 mockWorld0 1500 =
      (.error (.InsufficientFundsException "Insufficient funds in account"),
       { ctlAcc1001 with current_account := some { acct1001 with balance := 1000 } },
       mockWorld0) := by
  constructor
  · exact (C1_withdraw_ordering ctlAcc1001 { mockWorld0 with available_cash := 100 }
      acct1001 200 rfl rfl (by decide)).1 (by decide)
  · exact (C1_withdraw_ordering ctlAcc1001 mockWorld0 acct1001 1500 rfl rfl
      (by decide)).2 (by decide) acct1001 rfl (by decide)

/-- Claim C10: a withdraw from ACCOUNT_SELECTED that fails with
InsufficientFunds (cash sufficient, fresh ledger balance below the
amount) still overwrites the cached account's balance with the freshly
read ledger value — the failing call's side effect on the session is not
rolled back. -/
theorem C10_failed_withdraw_cache (ctl : Controller) (w : MockWorld)
    (acc la : Account) (amount : Int)
    (hs : ctl.state = ATMState.ACCOUNT_SELECTED)
    (ha : ctl.current_account = some acc)
    (hpos : 0 < amount)
    (hcash : amount ≤ w.available_cash)
    (hla : w.accounts.lookup acc.account_number = some la)
    (hbal : la.balance < amount) :
    ATM.withdraw mockCollab ctl w amount =
      (.error (.InsufficientFundsException "Insufficient funds in account"),
       { ctl with current_account := some { acc with balance := la.balance } },
       w) := by
  simp [ATM.withdraw, ATM.get_balance, mockCollab, MockWorld.has_sufficient_cash,
        MockWorld.get_balance, hs, ha, hla, hbal, not_le.mpr hpos, hcash]

theorem C10_witness :
    ATM.withdraw mockCollab
      { ctlAcc1001 with current_account := some { acct1001 with balance := 999 } }
      mockWorld0 1500 =
      (.error (.InsufficientFundsException "Insufficient funds in account"),
       { ctlAcc1001 with current_account := some { acct1001 with balance := 1000 } },
       mockWorld0) :=
  C10_failed_withdraw_cache
    { ctlAcc1001 with current_account := some { acct1001 with balance := 999 } }
    mockWorld0 { acct1001 with balance := 999 } acct1001 1500
    rfl rfl (by decide) (by decide) rfl (by decide)

/-- Counterexample to claim C8 as stated: the post-init-valid account
`acctZeroLimit` carries an explicit daily withdrawal limit of 0; an amount
of 5 exceeds that limit, so the spec's invariant demands
`can_withdraw 5 = false`, but the code's truthiness guard skips the limit
comparison for a 0 limit and returns `true`. -/
theorem C8_counterexample :
    Account.post_init acctZeroLimit = .ok acctZeroLimit ∧
    Account.can_withdraw acctZeroLimit 5 = true ∧
    can_withdraw_claim acctZeroLimit 5 = false :=
  ⟨rfl, rfl, rfl⟩

/-- Claim C8 amended: `can_withdraw amount` is true iff the account is
active, the amount is positive, the amount does not exceed the daily
withdrawal limit *except that a stored limit of 0 (or an unset limit)
disables the limit check* (Python truthiness), and — for non-CREDIT
accounts — the balance is at least the amount. -/
theorem C8_can_withdraw_amended (a : Account) (amount : Int) :
    Account.can_withdraw a amount = true ↔
      (a.is_active = true ∧ 0 < amount ∧
       (∀ l : Int, a.daily_withdrawal_limit = some l → l = 0 ∨ amount ≤ l) ∧
       (a.account_type ≠ AccountType.CREDIT → amount ≤ a.balance)) := by
  rcases a with ⟨num, ty, bal, name, act, lim⟩
  cases act with
  | false => simp [Account.can_withdraw]
  | true =>
    cases lim with
    | none => cases ty <;> simp [Account.can_withdraw]
    | some l => cases ty <;> simp [Account.can_withdraw]

theorem C8_amended_witness :
    acct1001.is_active = true ∧ 0 < (500 : Int) ∧
    (∀ l : Int, acct1001.daily_withdrawal_limit = some l → l = 0 ∨ (500 : Int) ≤ l) ∧
    (acct1001.account_type ≠ AccountType.CREDIT → (500 : Int) ≤ acct1001.balance) :=
  (C8_can_withdraw_amended acct1001 500).mp rfl

/-- Counterexample to claim C2 as stated: with a collaborator assignment
in which the cash check passes, the ledger debit succeeds (returning the
new balance 800) and the subsequent dispense call fails, the controller
surfaces the dispenser's *generic* InsufficientCash kind — the error
taxonomy of `src/exceptions/atm_exceptions.py` has no dedicated
"dispense-after-debit failure" kind, and `withdraw` wraps nothing. -/
theorem C2_counterexample :
    faultyDispenserCollab.withdraw () "1001" 200 = (.ok 800, ()) ∧
    faultyDispenserCollab.dispense_cash () 200 =
      (.error (.InsufficientCashException "Dispense failure"), ()) ∧
    (ATM.withdraw faultyDispenserCollab ctlAcc1001 () 200).1 =
      .error (.InsufficientCashException "Dispense failure") ∧
    isInsufficientCash (.InsufficientCashException "Dispense failure") = true :=
  ⟨rfl, rfl, rfl, rfl⟩

/-- Claim C2 amended: when the ledger debit succeeds but the subsequent
dispense call fails, `withdraw` propagates the dispenser's exception
completely unchanged (for the repository's dispenser contract that is the
generic InsufficientCash), logs no transaction, and leaves the debit in
place — there is no dedicated "dispense-after-debit failure" kind. -/
theorem C2_dispense_failure_propagates {σ : Type} (C : Collaborators σ)
    (ctl : Controller) (w w1 w2 w3 w4 : σ) (acc : Account)
    (amount bal nb : Int) (e : PyExc)
    (hs : ctl.state = ATMState.ACCOUNT_SELECTED)
    (ha : ctl.current_account = some acc)
    (hpos : 0 < amount)
    (hcash : C.has_sufficient_cash w amount = (.ok true, w1))
    (hbal : C.get_balance w1 acc.account_number = (.ok bal, w2))
    (hfunds : ¬ bal < amount)
    (hdebit : C.withdraw w2 acc.account_number amount = (.ok nb, w3))
    (hdisp : C.dispense_cash w3 amount = (.error e, w4)) :
    ATM.withdraw C ctl w amount =
      (.error e, { ctl with current_account := some { acc with balance := bal } },
       w4) := by
  simp [ATM.withdraw, ATM.get_balance, hs, ha, hcash, hbal, hfunds, hdebit, hdisp,
        not_le.mpr hpos]

theorem C2_amended_witness :
    ATM.withdraw faultyDispenserCollab ctlAcc1001 () 200 =
      (.error (.InsufficientCashException "Dispense failure"),
       { ctlAcc1001 with current_account := some { acct1001 with balance := 1000 } },
       ()) :=
  C2_dispense_failure_propagates faultyDispenserCollab ctlAcc1001 () () () () ()
    acct1001 200 1000 800 (.InsufficientCashException "Dispense failure")
    rfl rfl (by decide) rfl rfl (by decide) rfl rfl

theorem withdraw_log_shape {σ : Type} (C : Collaborators σ) (ctl : Controller)
    (w : σ) (amount : Int) :
    ((ATM.withdraw C ctl w amount).2.1).transaction_history =
      ctl.transaction_history ++
        (match (ATM.withdraw C ctl w amount).1 with
         | .ok t => [t]
         | .error _ => []) := by
  unfold ATM.withdraw
  split
  · simp
  · split
    · simp
    · split
      · simp
      · rcases hcash : C.has_sufficient_cash w amount with ⟨rc, w1⟩
        rcases rc with e | b
        · simp [hcash]
        · cases b with
          | false => simp [hcash]
          | true =>
            simp only [hcash]
            rcases hgb : ATM.get_balance C ctl w1 with ⟨rg, ctl', w2⟩
            have hfr : ctl'.transaction_history = ctl.transaction_history := by
              have h := (get_balance_frame C ctl w1).2.2
              rw [hgb] at h
              exact h
            rcases rg with e | bal
            · simp [hgb, hfr]
            · simp only [hgb]
              by_cases hlt : bal < amount
              · simp [hlt, hfr]
              · simp only [hlt, if_false]
                rcases hca : ctl'.current_account with _ | acc2
                · simp [hca, hfr]
                · simp only [hca]
                  rcases hbw : C.withdraw w2 acc2.account_number amount with ⟨rw', w3⟩
                  rcases rw' with e | nb
                  · simp [hbw, hfr]
                  · simp only [hbw]
                    rcases hdc : C.dispense_cash w3 amount with ⟨rd, w4⟩
                    rcases rd with e | d
                    · simp [hdc, hfr]
                    · simp [hdc, hfr]

theorem runOp_txn_log {σ : Type} (C : Collaborators σ) (ctl : Controller) (w : σ)
    (op : Op) (hop : isTxnOp op = true) :
    ((runOp C ctl w op).2.1).transaction_history =
      ctl.transaction_history ++ collectR (runOp C ctl w op).1 := by
  cases op with
  | insert_card n => simp [isTxnOp] at hop
  | enter_pin p => simp [isTxnOp] at hop
  | get_accounts => simp [isTxnOp] at hop
  | select_account n => simp [isTxnOp] at hop
  | get_balance => simp [isTxnOp] at hop
  | eject_card => simp [isTxnOp] at hop
  | deposit amount =>
    have h := deposit_log_shape C ctl w amount
    rcases hd : ATM.deposit C ctl w amount with ⟨r, c, s⟩
    rw [hd] at h
    rcases r with e | t <;> simp_all [runOp, collectR, Except.map]
  | withdraw amount =>
    have h := withdraw_log_shape C ctl w amount
    rcases hd : ATM.withdraw C ctl w amount with ⟨r, c, s⟩
    rw [hd] at h
    rcases r with e | t <;> simp_all [runOp, collectR, Except.map]

theorem runSeq_log {σ : Type} (C : Collaborators σ) (ops : List Op) :
    ∀ (ctl : Controller) (w : σ), (∀ op ∈ ops, isTxnOp op = true) →
      ((runSeq C ctl w ops).1).transaction_history =
        ctl.transaction_history ++ (runSeq C ctl w ops).2.2 := by
  induction ops with
  | nil => intro ctl w _; simp [runSeq]
  | cons op rest ih =>
    intro ctl w hops
    have hop : isTxnOp op = true := hops op (List.mem_cons_self _ _)
    have hrest : ∀ o ∈ rest, isTxnOp o = true :=
      fun o ho => hops o (List.mem_cons_of_mem _ ho)
    have hlog := runOp_txn_log C ctl w op hop
    rcases hro : runOp C ctl w op with ⟨r, ctl', w'⟩
    rw [hro] at hlog
    have ihh := ih ctl' w' hrest
    rcases hrs : runSeq C ctl' w' rest with ⟨ctlf, wf, ts⟩
    rw [hrs] at ihh
    simp at ihh
    simp only [runSeq, hro, hrs]
    rcases r with e | v
    · simp [collectR] at hlog
      simp [ihh, hlog]
    · rcases v with b | i | a | l | t <;> simp [collectR] at hlog <;>
        simp [ihh, hlog]

/-- Claim C6: transaction-log fidelity.  (i) Over any sequence of
deposit/withdraw calls in one session the log grows by exactly the
transactions the successful calls returned, in completion order, with the
earlier log preserved unchanged (no entry mutated or reordered); (ii) a
successful deposit appends exactly one DEPOSIT entry whose
`balance_after` is the post-operation balance the ledger collaborator
reported; (iii) a successful withdraw likewise appends exactly one
WITHDRAWAL entry with the ledger-reported balance; (iv)/(v) failed
deposit/withdraw calls leave the log unchanged. -/
theorem C6_log_fidelity :
    (∀ (σ : Type) (C : Collaborators σ) (ctl : Controller) (w : σ) (ops : List Op),
      (∀ op ∈ ops, isTxnOp op = true) →
      ((runSeq C ctl w ops).1).transaction_history =
        ctl.transaction_history ++ (runSeq C ctl w ops).2.2) ∧
    (∀ (σ : Type) (C : Collaborators σ) (ctl : Controller) (w w1 : σ)
      (acc : Account) (amount nb : Int),
      ctl.state = ATMState.ACCOUNT_SELECTED →
      ctl.current_account = some acc →
      0 < amount →
      C.deposit w acc.account_number amount = (.ok nb, w1) →
      ATM.deposit C ctl w amount =
        (.ok { transaction_type := TransactionType.DEPOSIT, amount := amount,
               account_number := acc.account_number, balance_after := nb },
         { ctl with
             transaction_history := ctl.transaction_history ++
               [{ transaction_type := TransactionType.DEPOSIT, amount := amount,
                  account_number := acc.account_number, balance_after := nb }],
             current_account := some { acc with balance := nb } },
         w1)) ∧
    (∀ (σ : Type) (C : Collaborators σ) (ctl : Controller) (w w1 w2 w3 w4 : σ)
      (acc : Account) (amount bal nb : Int) (d : Bool),
      ctl.state = ATMState.ACCOUNT_SELECTED →
      ctl.current_account = some acc →
      0 < amount →
      C.has_sufficient_cash w amount = (.ok true, w1) →
      C.get_balance w1 acc.account_number = (.ok bal, w2) →
      ¬ bal < amount →
      C.withdraw w2 acc.account_number amount = (.ok nb, w3) →
      C.dispense_cash w3 amount = (.ok d, w4) →
      ATM.withdraw C ctl w amount =
        (.ok { transaction_type := TransactionType.WITHDRAWAL, amount := amount,
               account_number := acc.account_number, balance_after := nb },
         { ctl with
             transaction_history := ctl.transaction_history ++
               [{ transaction_type := TransactionType.WITHDRAWAL, amount := amount,
                  account_number := acc.account_number, balance_after := nb }],
             current_account := some { acc with balance := nb } },
         w4)) ∧
    (∀ (σ : Type) (C : Collaborators σ) (ctl ctl' : Controller) (w w' : σ)
      (amount : Int) (e : PyExc),
      ATM.deposit C ctl w amount = (.error e, ctl', w') →
      ctl'.transaction_history = ctl.transaction_history) ∧
    (∀ (σ : Type) (C : Collaborators σ) (ctl ctl' : Controller) (w w' : σ)
      (amount : Int) (e : PyExc),
      ATM.withdraw C ctl w amount = (.error e, ctl', w') →
      ctl'.transaction_history = ctl.transaction_history) := by
  refine ⟨fun σ C ctl w ops h => runSeq_log C ops ctl w h, ?_, ?_, ?_, ?_⟩
  · intro σ C ctl w w1 acc amount nb hs ha hpos hdep
    simp [ATM.deposit, hs, ha, hdep, not_le.mpr hpos]
  · intro σ C ctl w w1 w2 w3 w4 acc amount bal nb d hs ha hpos hcash hbal hfunds
      hdebit hdisp
    simp [ATM.withdraw, ATM.get_balance, hs, ha, hcash, hbal, hfunds, hdebit,
          hdisp, not_le.mpr hpos]
  · intro σ C ctl ctl' w w' amount e hd
    have h := deposit_log_shape C ctl w amount
    rw [hd] at h
    simpa using h
  · intro σ C ctl ctl' w w' amount e hd
    have h := withdraw_log_shape C ctl w amount
    rw [hd] at h
    simpa using h

theorem C6_witness :
    ((runSeq mockCollab ctlAcc1001 mockWorld0
        [Op.deposit 500, Op.withdraw 200]).1).transaction_history =
      ctlAcc1001.transaction_history ++
        (runSeq mockCollab ctlAcc1001 mockWorld0
          [Op.deposit 500, Op.withdraw 200]).2.2 ∧
    (runSeq mockCollab ctlAcc1001 mockWorld0
        [Op.deposit 500, Op.withdraw 200]).2.2 =
      [{ transaction_type := TransactionType.DEPOSIT, amount := 500,
         account_number := "1001", balance_after := 1500 },
       { transaction_type := TransactionType.WITHDRAWAL, amount := 200,
         account_number := "1001", balance_after := 1300 }] :=
  ⟨C6_log_fidelity.1 MockWorld mockCollab ctlAcc1001 mockWorld0
      [Op.deposit 500, Op.withdraw 200] (by decide),
   by rfl⟩
